import Mathlib

/-!
Verification of GoPasswordUtilities (password generation, complexity
scoring, salted digesting) against its specification.

The Go source is embedded shallowly:
* strings are `List Char`; Go byte values are `Nat` (callers keep them below 256);
* the cryptographically secure random source is external, so every function
  that calls `rand.Read` takes the bytes the source produced as an extra
  argument (`none` models a read error);
* the digest primitives (`md5.Sum`, `sha256.Sum256`, `sha512.Sum512`) are
  external pure functions, passed as parameters;
* the dictionary word list read from /usr/share/dict/words is external, passed
  as a `List (List Char)` of lines;
* functions that can only end in a Go runtime panic or `log.Fatal` return a
  dedicated outcome constructor for that case.
-/

namespace GoPasswordUtilities

/-- The fixed generation alphabet, from the `characters` constant:
26 upper, 26 lower, 10 digits and 25 special symbols. -/
def characters : List Char :=
  ("ABCDEFGHIJKLMNOPQRSTUVWXYZabcdefghijklmnopqrstuvwxyz0123456789" ++
   "!@#$%^&*()-_=+,.?/:;\x7b\x7d[]~").toList

/-- Go struct `Password`: the text and its recorded length. -/
structure Password where
  Pass : List Char
  Length : Nat
deriving DecidableEq

/-- Constructor `New`: records `len(password)` in the `Length` field. -/
def New (password : List Char) : Password :=
  { Pass := password, Length := password.length }

/-- Go struct `PasswordComplexity`.  `Score` is `Int` because the Go field is
a signed `int` and the dictionary branch decrements it. -/
structure PasswordComplexity where
  Length : Nat
  Score : Int
  ContainsUpper : Bool
  ContainsLower : Bool
  ContainsNumber : Bool
  ContainsSpecial : Bool
  DictionaryBased : Bool
deriving DecidableEq

/-- Go struct `SaltConf`.  `Length` is `Int`: the Go field is a signed `int`
and nothing in the code keeps it non-negative. -/
structure SaltConf where
  Length : Int
deriving DecidableEq

/-- Regex `[a-z]` applied by `MatchString`: some character is a lower-case
ASCII letter. -/
def matchLower (s : List Char) : Bool :=
  s.any fun c => decide ('a' ≤ c ∧ c ≤ 'z')

/-- Regex `[A-Z]` applied by `MatchString`. -/
def matchUpper (s : List Char) : Bool :=
  s.any fun c => decide ('A' ≤ c ∧ c ≤ 'Z')

/-- Regex `[0-9]` applied by `MatchString`. -/
def matchNumber (s : List Char) : Bool :=
  s.any fun c => decide ('0' ≤ c ∧ c ≤ '9')

/-- The character class of the special-character regex, read escape by escape.
The raw pattern contains the run `\(\\\)`: literal `(`, literal backslash,
literal `)`.  The class therefore holds 26 characters: the 25 visible symbols
and a backslash. -/
def specialClassChars : List Char :=
  ['!', '@', '#', '$', '%', '^', '&', '*', '(', '\\', ')', '-', '_', '=', '+',
   ',', '.', '?', '/', ':', ';', '\x7b', '\x7d', '[', ']', '~']

/-- The special-character regex applied by `MatchString`. -/
def matchSpecial (s : List Char) : Bool :=
  s.any fun c => decide (c ∈ specialClassChars)

/-- The special-character set exactly as the spec words it:
`!@#$%^&*()-_=+,.?/:;\x7b\x7d[]~` and nothing else (no backslash).
Stated separately from the source so the two can be compared. -/
def specSpecialChars : List Char :=
  ['!', '@', '#', '$', '%', '^', '&', '*', '(', ')', '-', '_', '=', '+',
   ',', '.', '?', '/', ':', ';', '\x7b', '\x7d', '[', ']', '~']

/-- `searchDict`, scanning the word-list lines.  The Go loop body is
`if strings.Contains(strings.ToLower(scanner.Text()), word) { break; return true }`:
the `break` runs first, so a match leaves the loop and falls through to the
final `return false`; the `return true` after `break` is dead code. -/
def searchDict (dict : List (List Char)) (word : List Char) : Bool :=
  match dict with
  | [] => false
  | line :: rest =>
      if decide (word <:+: line.map Char.toLower) then
        false
      else
        searchDict rest word

/-- `ProcessPassword`: minimum-length gate, then the four class checks, then
the dictionary check, each mutating the fresh `PasswordComplexity`. -/
def ProcessPassword (dict : List (List Char)) (p : Password) :
    Except String PasswordComplexity :=
  if p.Length < 8 then
    Except.error "ERROR: password isn\x27t long enough for evaluation"
  else
    let c0 : PasswordComplexity :=
      { Length := p.Length, Score := 0, ContainsUpper := false,
        ContainsLower := false, ContainsNumber := false,
        ContainsSpecial := false, DictionaryBased := false }
    let c1 := if matchLower p.Pass then
        { c0 with ContainsLower := true, Score := c0.Score + 1 } else c0
    let c2 := if matchUpper p.Pass then
        { c1 with ContainsUpper := true, Score := c1.Score + 1 } else c1
    let c3 := if matchNumber p.Pass then
        { c2 with ContainsNumber := true, Score := c2.Score + 1 } else c2
    let c4 := if matchSpecial p.Pass then
        { c3 with ContainsSpecial := true, Score := c3.Score + 1 } else c3
    let c5 := if searchDict dict p.Pass then
        { c4 with DictionaryBased := true, Score := c4.Score - 1 } else c4
    Except.ok c5

/-- `GeneratePassword`.  `randRead` is the outcome of `rand.Read` on a buffer
of `length` bytes: `some bytes` on success, `none` on error.  On success each
byte indexes the alphabet through `mod len(characters)`; on error the loop is
skipped and the buffer stays empty. -/
def GeneratePassword (length : Nat) (randRead : Option (List Nat)) : Password :=
  match randRead with
  | some randBytes =>
      New ((List.range length).map fun j =>
        characters.getD ((randBytes.getD j 0) % characters.length) 'A')
  | none => New []

/-- Outcome of the `GenerateVeryStrongPassword` loop under a finite supply of
modeled random draws. -/
inductive GenerateOutcome where
  /-- The loop returned this password. -/
  | returned (p : Password)
  /-- `ProcessPassword` returned an error and `log.Fatalln` terminated the
  process. -/
  | fatalExit (msg : String)
  /-- The modeled draws ran out with the loop still running; the real loop
  would keep iterating. -/
  | stillLooping
deriving DecidableEq

/-- `GenerateVeryStrongPassword`: draw, score, return on score 4, else retry.
`draws` lists the byte buffers successive `rand.Read` calls produce. -/
def GenerateVeryStrongPassword (dict : List (List Char)) (length : Nat)
    (draws : List (List Nat)) : GenerateOutcome :=
  match draws with
  | [] => GenerateOutcome.stillLooping
  | bytes :: rest =>
      let p := GeneratePassword length (some bytes)
      match ProcessPassword dict p with
      | Except.error msg => GenerateOutcome.fatalExit msg
      | Except.ok pc =>
          if pc.Score = 4 then GenerateOutcome.returned p
          else GenerateVeryStrongPassword dict length rest

/-- One lower-case hex digit, as produced by `fmt.Sprintf %x`. -/
def hexDigit (n : Nat) : Char :=
  if n < 10 then Char.ofNat (48 + n) else Char.ofNat (87 + n)

/-- Two lower-case hex digits for one byte, as `%x` prints each byte of a
`[]byte`. -/
def hexByte (b : Nat) : List Char :=
  [hexDigit (b % 256 / 16), hexDigit (b % 16)]

/-- `fmt.Sprintf("%x", salt)` on a byte slice: the bytes in order, two
lower-case hex digits each. -/
def hexString (bs : List Nat) : List Char :=
  (bs.map hexByte).flatten

/-- Outcome of a digest method call. -/
inductive DigestOutcome where
  /-- Normal return: the digest and the salt slice (`none` for the unsalted
  call, which returns `nil`). -/
  | ok (digest : List Nat) (salt : Option (List Nat))
  /-- Go runtime panic (`make([]byte, n)` with negative `n`). -/
  | panic (msg : String)
deriving DecidableEq

/-- `getRandomBytes`: `make([]byte, length)` panics for negative length;
otherwise the buffer is filled by `rand.Read` with the first `length` bytes
the source produces. -/
def getRandomBytes (length : Int) (randomData : List Nat) : Option (List Nat) :=
  if length < 0 then none
  else some (randomData.take length.toNat)

/-- Method `Password.MD5`.  `md5Sum` is the external `md5.Sum` primitive;
`randomData` is what the secure source produces for the salt.  With a
`SaltConf` the digested input is the password text concatenated with the hex
rendering of the salt; without one it is the text alone. -/
def MD5 (md5Sum : List Char → List Nat) (p : Password) (saltConf : Option SaltConf)
    (randomData : List Nat) : DigestOutcome :=
  match saltConf with
  | some conf =>
      match getRandomBytes conf.Length randomData with
      | none => DigestOutcome.panic "makeslice: len out of range"
      | some salt => DigestOutcome.ok (md5Sum (p.Pass ++ hexString salt)) (some salt)
  | none => DigestOutcome.ok (md5Sum p.Pass) none

/-- Method `Password.SHA256`, same shape as `MD5` with `sha256.Sum256`. -/
def SHA256 (sha256Sum : List Char → List Nat) (p : Password) (saltConf : Option SaltConf)
    (randomData : List Nat) : DigestOutcome :=
  match saltConf with
  | some conf =>
      match getRandomBytes conf.Length randomData with
      | none => DigestOutcome.panic "makeslice: len out of range"
      | some salt => DigestOutcome.ok (sha256Sum (p.Pass ++ hexString salt)) (some salt)
  | none => DigestOutcome.ok (sha256Sum p.Pass) none

/-- Method `Password.SHA512`, same shape as `MD5` with `sha512.Sum512`. -/
def SHA512 (sha512Sum : List Char → List Nat) (p : Password) (saltConf : Option SaltConf)
    (randomData : List Nat) : DigestOutcome :=
  match saltConf with
  | some conf =>
      match getRandomBytes conf.Length randomData with
      | none => DigestOutcome.panic "makeslice: len out of range"
      | some salt => DigestOutcome.ok (sha512Sum (p.Pass ++ hexString salt)) (some salt)
  | none => DigestOutcome.ok (sha512Sum p.Pass) none

/-- The `passwordScores` map; Go map indexing yields the zero value `""` for
a key outside the five entries. -/
def passwordScores (score : Int) : String :=
  if score = 0 then "Horrible"
  else if score = 1 then "Weak"
  else if score = 2 then "Medium"
  else if score = 3 then "Strong"
  else if score = 4 then "Very Strong"
  else ""

/-- Method `PasswordComplexity.ComplexityRating`: bare map lookup. -/
def ComplexityRating (c : PasswordComplexity) : String :=
  passwordScores c.Score

end GoPasswordUtilities

namespace GoPasswordUtilities

/-- Helper: `searchDict` returns `false` on every dictionary and word, because
the `break` in its loop body runs before the `return true` that follows it. -/
theorem searchDict_eq_false (dict : List (List Char)) (word : List Char) :
    searchDict dict word = false := by
  induction dict with
  | nil => rfl
  | cons line rest ih =>
      simp only [searchDict]
      split
      · rfl
      · exact ih

/-- Helper: closed form of `ProcessPassword` on passwords long enough to be
evaluated.  The score is the number of satisfied class predicates and the
dictionary flag is never set. -/
theorem ProcessPassword_ok_form (dict : List (List Char)) (p : Password)
    (h : ¬ p.Length < 8) :
    ProcessPassword dict p = Except.ok
      { Length := p.Length,
        Score := (if matchLower p.Pass then (1 : Int) else 0)
               + (if matchUpper p.Pass then 1 else 0)
               + (if matchNumber p.Pass then 1 else 0)
               + (if matchSpecial p.Pass then 1 else 0),
        ContainsUpper := matchUpper p.Pass,
        ContainsLower := matchLower p.Pass,
        ContainsNumber := matchNumber p.Pass,
        ContainsSpecial := matchSpecial p.Pass,
        DictionaryBased := false } := by
  simp only [ProcessPassword, if_neg h, searchDict_eq_false, Bool.false_eq_true,
    if_false]
  split_ifs <;> simp_all

/-- C1: evaluation at the failing input.  The password `password` is a
substring of the lower-cased dictionary entry `passwords`, yet `searchDict`
returns `false` (its `break` precedes its `return true`), so `ProcessPassword`
returns `Score = 1` and `DictionaryBased = false` instead of decrementing the
score and setting the flag as the claim (and the Go doc comments) require. -/
theorem c1_dictionary_penalty_dead_at_failing_input :
    (['p','a','s','s','w','o','r','d'] <:+:
      (['p','a','s','s','w','o','r','d','s'].map Char.toLower)) ∧
    searchDict [['p','a','s','s','w','o','r','d','s']]
      ['p','a','s','s','w','o','r','d'] = false ∧
    ProcessPassword [['p','a','s','s','w','o','r','d','s']]
        (New ['p','a','s','s','w','o','r','d']) =
      Except.ok ⟨8, 1, false, true, false, false, false⟩ :=
  ⟨by decide, by decide, rfl⟩

/-- C2: `searchDict` returns `false` for every dictionary and word, and every
report `ProcessPassword` returns has `DictionaryBased = false` and a score in
the interval `[0, 4]`. -/
theorem c2_searchDict_false_and_score_bounded (dict : List (List Char))
    (word : List Char) (p : Password) (c : PasswordComplexity)
    (h : ProcessPassword dict p = Except.ok c) :
    searchDict dict word = false ∧ c.DictionaryBased = false ∧
      0 ≤ c.Score ∧ c.Score ≤ 4 := by
  refine ⟨searchDict_eq_false dict word, ?_⟩
  by_cases hl : p.Length < 8
  · unfold ProcessPassword at h
    rw [if_pos hl] at h
    simp at h
  · rw [ProcessPassword_ok_form dict p hl] at h
    obtain rfl : _ = c := Except.ok.inj h
    refine ⟨rfl, ?_, ?_⟩ <;> dsimp only <;> split_ifs <;> omega

/-- C2 witness: concrete instance of the bound at an all-lower-case password
of length 8. -/
theorem c2_witness :
    ProcessPassword [] (New ['a','a','a','a','a','a','a','a']) =
      Except.ok ⟨8, 1, false, true, false, false, false⟩ ∧
    searchDict [] ['x'] = false ∧
    (⟨8, 1, false, true, false, false, false⟩ : PasswordComplexity).DictionaryBased
      = false ∧
    0 ≤ (⟨8, 1, false, true, false, false, false⟩ : PasswordComplexity).Score ∧
    (⟨8, 1, false, true, false, false, false⟩ : PasswordComplexity).Score ≤ 4 :=
  ⟨rfl, (c2_searchDict_false_and_score_bounded [] ['x']
    (New ['a','a','a','a','a','a','a','a']) ⟨8, 1, false, true, false, false, false⟩
    rfl).1,
   (c2_searchDict_false_and_score_bounded [] ['x']
    (New ['a','a','a','a','a','a','a','a']) ⟨8, 1, false, true, false, false, false⟩
    rfl).2.1,
   (c2_searchDict_false_and_score_bounded [] ['x']
    (New ['a','a','a','a','a','a','a','a']) ⟨8, 1, false, true, false, false, false⟩
    rfl).2.2.1,
   (c2_searchDict_false_and_score_bounded [] ['x']
    (New ['a','a','a','a','a','a','a','a']) ⟨8, 1, false, true, false, false, false⟩
    rfl).2.2.2⟩

/-- C3 counterexample: a password of eight backslashes satisfies the scorer
special-character predicate although none of its characters belongs to the
symbol set the claim names, so the predicate is not an iff against that set. -/
theorem c3_counterexample :
    matchSpecial (List.replicate 8 '\\') = true ∧
    ∀ c ∈ List.replicate 8 '\\', c ∉ specSpecialChars := by decide

/-- C3 (amended): the scorer special-character predicate holds iff the
password contains a character of the spec symbol set or a backslash; the raw
regex class contains a literal backslash through its `\(\\\)` run. -/
theorem c3_special_iff (s : List Char) :
    matchSpecial s = true ↔ ∃ c ∈ s, c ∈ specSpecialChars ∨ c = '\\' := by
  have hmem : ∀ c : Char,
      c ∈ specialClassChars ↔ (c ∈ specSpecialChars ∨ c = '\\') := by
    intro c
    have hperm : specialClassChars.Perm ('\\' :: specSpecialChars) := by decide
    rw [hperm.mem_iff, List.mem_cons]
    tauto
  simp only [matchSpecial, List.any_eq_true, decide_eq_true_eq]
  constructor
  · rintro ⟨c, hc, hmemc⟩
    exact ⟨c, hc, (hmem c).1 hmemc⟩
  · rintro ⟨c, hc, hd⟩
    exact ⟨c, hc, (hmem c).2 hd⟩

/-- C4 counterexample: when `rand.Read` reports an error, `GeneratePassword`
still returns normally, producing the empty password instead of any
random-source failure value; the requested length 10 is not honoured. -/
theorem c4_counterexample :
    GeneratePassword 10 none = New [] ∧ (GeneratePassword 10 none).Length ≠ 10 :=
  ⟨rfl, by decide⟩

/-- C4 (amended): on a random-source read error `GeneratePassword` silently
returns the empty password for every requested length; no error is surfaced. -/
theorem c4_rand_failure_silent_empty (length : Nat) :
    GeneratePassword length none = New [] := rfl

/-- C5: when the random source supplies the requested bytes, the generated
password records exactly the requested length, the alphabet has 87 characters,
and every generated character is drawn from it. -/
theorem c5_generated_length_and_alphabet (length : Nat) (bytes : List Nat)
    (h1 : 1 ≤ length) (h2 : bytes.length = length) :
    (GeneratePassword length (some bytes)).Length = length ∧
    characters.length = 87 ∧
    ∀ c ∈ (GeneratePassword length (some bytes)).Pass, c ∈ characters := by
  refine ⟨?_, by decide, ?_⟩
  · simp [GeneratePassword, New]
  · intro c hc
    simp only [GeneratePassword, New, List.mem_map, List.mem_range] at hc
    obtain ⟨j, hj, rfl⟩ := hc
    have hlt : (bytes.getD j 0) % characters.length < characters.length :=
      Nat.mod_lt _ (by decide)
    rw [List.getD_eq_getElem?_getD, List.getElem?_eq_getElem hlt]
    simp

/-- C5 witness: a concrete draw of eight bytes. -/
theorem c5_witness :
    (GeneratePassword 8 (some [0,27,55,64,90,150,200,255])).Length = 8 ∧
    characters.length = 87 ∧
    ∀ c ∈ (GeneratePassword 8 (some [0,27,55,64,90,150,200,255])).Pass,
      c ∈ characters :=
  c5_generated_length_and_alphabet 8 [0,27,55,64,90,150,200,255]
    (by decide) (by decide)

/-- C6: round-trip law for salted digests.  Whenever a salted MD5, SHA256 or
SHA512 call returns a digest and a salt, the unsalted call on the password
text concatenated with the lower-case hex rendering of that salt returns the
same digest, for any digest primitive. -/
theorem c6_salted_digest_roundtrip (H16 H32 H64 : List Char → List Nat)
    (p : Password) (conf : SaltConf) (rd : List Nat) :
    (∀ d s, MD5 H16 p (some conf) rd = DigestOutcome.ok d (some s) →
      MD5 H16 (New (p.Pass ++ hexString s)) none [] = DigestOutcome.ok d none) ∧
    (∀ d s, SHA256 H32 p (some conf) rd = DigestOutcome.ok d (some s) →
      SHA256 H32 (New (p.Pass ++ hexString s)) none [] = DigestOutcome.ok d none) ∧
    (∀ d s, SHA512 H64 p (some conf) rd = DigestOutcome.ok d (some s) →
      SHA512 H64 (New (p.Pass ++ hexString s)) none [] = DigestOutcome.ok d none) := by
  refine ⟨?_, ?_, ?_⟩
  · intro d s h
    simp only [MD5, getRandomBytes] at h
    by_cases hneg : conf.Length < 0
    · rw [if_pos hneg] at h
      simp at h
    · rw [if_neg hneg] at h
      obtain ⟨hd, hs⟩ := DigestOutcome.ok.inj h
      obtain rfl := Option.some.inj hs
      subst hd
      rfl
  · intro d s h
    simp only [SHA256, getRandomBytes] at h
    by_cases hneg : conf.Length < 0
    · rw [if_pos hneg] at h
      simp at h
    · rw [if_neg hneg] at h
      obtain ⟨hd, hs⟩ := DigestOutcome.ok.inj h
      obtain rfl := Option.some.inj hs
      subst hd
      rfl
  · intro d s h
    simp only [SHA512, getRandomBytes] at h
    by_cases hneg : conf.Length < 0
    · rw [if_pos hneg] at h
      simp at h
    · rw [if_neg hneg] at h
      obtain ⟨hd, hs⟩ := DigestOutcome.ok.inj h
      obtain rfl := Option.some.inj hs
      subst hd
      rfl

/-- C6 witness: round trip at a one-byte salt, with digest primitives that
report the input length (tagged per algorithm). -/
theorem c6_witness :
    MD5 (fun l => [l.length]) (New ['a']) (some ⟨1⟩) [255] =
      DigestOutcome.ok [3] (some [255]) ∧
    MD5 (fun l => [l.length]) (New (['a'] ++ hexString [255])) none [] =
      DigestOutcome.ok [3] none ∧
    SHA256 (fun l => [l.length, 2]) (New ['a']) (some ⟨1⟩) [255] =
      DigestOutcome.ok [3, 2] (some [255]) ∧
    SHA256 (fun l => [l.length, 2]) (New (['a'] ++ hexString [255])) none [] =
      DigestOutcome.ok [3, 2] none ∧
    SHA512 (fun l => [l.length, 3]) (New ['a']) (some ⟨1⟩) [255] =
      DigestOutcome.ok [3, 3] (some [255]) ∧
    SHA512 (fun l => [l.length, 3]) (New (['a'] ++ hexString [255])) none [] =
      DigestOutcome.ok [3, 3] none :=
  ⟨by decide,
   (c6_salted_digest_roundtrip (fun l => [l.length]) (fun l => [l.length, 2])
      (fun l => [l.length, 3]) (New ['a']) ⟨1⟩ [255]).1 [3] [255] (by decide),
   by decide,
   (c6_salted_digest_roundtrip (fun l => [l.length]) (fun l => [l.length, 2])
      (fun l => [l.length, 3]) (New ['a']) ⟨1⟩ [255]).2.1 [3, 2] [255] (by decide),
   by decide,
   (c6_salted_digest_roundtrip (fun l => [l.length]) (fun l => [l.length, 2])
      (fun l => [l.length, 3]) (New ['a']) ⟨1⟩ [255]).2.2 [3, 3] [255] (by decide)⟩

/-- C7: a password shorter than eight characters is rejected with the
too-short error for every dictionary, before any class check can contribute. -/
theorem c7_too_short_error (dict : List (List Char)) (p : Password)
    (h : p.Length < 8) :
    ProcessPassword dict p =
      Except.error "ERROR: password isn\x27t long enough for evaluation" := by
  unfold ProcessPassword
  rw [if_pos h]

/-- C7 witness: the password `Ab3#` satisfies all four class predicates and is
still rejected as too short. -/
theorem c7_witness :
    matchLower ['A','b','3','#'] = true ∧ matchUpper ['A','b','3','#'] = true ∧
    matchNumber ['A','b','3','#'] = true ∧ matchSpecial ['A','b','3','#'] = true ∧
    (New ['A','b','3','#']).Length < 8 ∧
    ProcessPassword [] (New ['A','b','3','#']) =
      Except.error "ERROR: password isn\x27t long enough for evaluation" :=
  ⟨by decide, by decide, by decide, by decide, by decide,
    c7_too_short_error [] (New ['A','b','3','#']) (by decide)⟩

/-- C8 counterexample: with a `SaltConf` of length 0 the salted digest calls
return a digest (the one of the bare password text, with an empty salt)
instead of failing with any invalid-salt-length error. -/
theorem c8_counterexample :
    MD5 (fun l => [l.length]) (New ['s','e','c','r','e','t']) (some ⟨0⟩) [7, 7] =
      DigestOutcome.ok [6] (some []) ∧
    SHA256 (fun l => [l.length]) (New ['s','e','c','r','e','t']) (some ⟨0⟩) [7, 7] =
      DigestOutcome.ok [6] (some []) ∧
    SHA512 (fun l => [l.length]) (New ['s','e','c','r','e','t']) (some ⟨0⟩) [7, 7] =
      DigestOutcome.ok [6] (some []) ∧
    MD5 (fun l => [l.length]) (New ['s','e','c','r','e','t']) none [] =
      DigestOutcome.ok [6] none := by decide

/-- C8 (amended): no salt-length validation exists.  A zero salt length makes
all three salted digest calls silently digest the bare password text with an
empty salt, and a negative salt length ends in the Go slice-allocation panic;
neither path produces an invalid-salt-length error value. -/
theorem c8_nonpositive_salt_no_error (H16 H32 H64 : List Char → List Nat)
    (p : Password) (conf : SaltConf) (rd : List Nat) (h : conf.Length ≤ 0) :
    (conf.Length = 0 ∧
      MD5 H16 p (some conf) rd = DigestOutcome.ok (H16 p.Pass) (some []) ∧
      SHA256 H32 p (some conf) rd = DigestOutcome.ok (H32 p.Pass) (some []) ∧
      SHA512 H64 p (some conf) rd = DigestOutcome.ok (H64 p.Pass) (some [])) ∨
    (conf.Length < 0 ∧
      MD5 H16 p (some conf) rd = DigestOutcome.panic "makeslice: len out of range" ∧
      SHA256 H32 p (some conf) rd = DigestOutcome.panic "makeslice: len out of range" ∧
      SHA512 H64 p (some conf) rd = DigestOutcome.panic "makeslice: len out of range") := by
  rcases lt_or_eq_of_le h with hlt | heq
  · right
    refine ⟨hlt, ?_, ?_, ?_⟩ <;>
      simp [MD5, SHA256, SHA512, getRandomBytes, hlt]
  · left
    refine ⟨heq, ?_, ?_, ?_⟩ <;>
      simp [MD5, SHA256, SHA512, getRandomBytes, hexString, heq]

/-- C8 witness: the zero-length case, instantiated. -/
theorem c8_witness :
    ((⟨0⟩ : SaltConf).Length ≤ 0) ∧
    ((((⟨0⟩ : SaltConf).Length = 0) ∧
      MD5 (fun l => [l.length]) (New ['a','b']) (some ⟨0⟩) [9] =
        DigestOutcome.ok [2] (some []) ∧
      SHA256 (fun l => [l.length]) (New ['a','b']) (some ⟨0⟩) [9] =
        DigestOutcome.ok [2] (some []) ∧
      SHA512 (fun l => [l.length]) (New ['a','b']) (some ⟨0⟩) [9] =
        DigestOutcome.ok [2] (some [])) ∨
     (((⟨0⟩ : SaltConf).Length < 0) ∧
      MD5 (fun l => [l.length]) (New ['a','b']) (some ⟨0⟩) [9] =
        DigestOutcome.panic "makeslice: len out of range" ∧
      SHA256 (fun l => [l.length]) (New ['a','b']) (some ⟨0⟩) [9] =
        DigestOutcome.panic "makeslice: len out of range" ∧
      SHA512 (fun l => [l.length]) (New ['a','b']) (some ⟨0⟩) [9] =
        DigestOutcome.panic "makeslice: len out of range")) :=
  ⟨by decide,
   c8_nonpositive_salt_no_error (fun l => [l.length]) (fun l => [l.length])
     (fun l => [l.length]) (New ['a','b']) ⟨0⟩ [9] (by decide)⟩

/-- C9 counterexample: at score 5 the rating lookup silently yields the empty
string, which is none of the five defined ratings; no failure and no clamping
happens. -/
theorem c9_counterexample :
    ComplexityRating ⟨8, 5, true, true, true, true, false⟩ = "" ∧
    "" ∉ ["Horrible", "Weak", "Medium", "Strong", "Very Strong"] :=
  ⟨rfl, by decide⟩

/-- C9 (amended): for every report whose score lies outside the rating domain,
`ComplexityRating` returns the empty string, the zero value of a Go map
lookup. -/
theorem c9_out_of_domain_rating_is_empty (c : PasswordComplexity)
    (h : c.Score < 0 ∨ 4 < c.Score) :
    ComplexityRating c = "" := by
  unfold ComplexityRating passwordScores
  rcases h with h | h <;> split_ifs <;> first | rfl | omega

/-- C9 witness: score 5. -/
theorem c9_witness :
    ((5 : Int) < 0 ∨ (4 : Int) < 5) ∧
    ComplexityRating ⟨8, 5, true, true, false, true, false⟩ = "" :=
  ⟨Or.inr (by norm_num),
   c9_out_of_domain_rating_is_empty ⟨8, 5, true, true, false, true, false⟩
     (Or.inr (by norm_num))⟩

/-- C10 (amended): every password the generation loop returns scores exactly 4
when rescored against the same dictionary.  The loop has no retry bound: when
the modeled draws run out it is still looping, and a scoring error terminates
the process, so no exhaustion error can be produced. -/
theorem c10_returned_password_scores_four (dict : List (List Char)) (length : Nat)
    (draws : List (List Nat)) (p : Password)
    (h : GenerateVeryStrongPassword dict length draws = GenerateOutcome.returned p) :
    ∃ c, ProcessPassword dict p = Except.ok c ∧ c.Score = 4 := by
  induction draws with
  | nil => simp [GenerateVeryStrongPassword] at h
  | cons bytes rest ih =>
      simp only [GenerateVeryStrongPassword] at h
      split at h
      · simp at h
      · rename_i pc hpc
        split at h
        · rename_i hs
          obtain rfl := GenerateOutcome.returned.inj h
          exact ⟨pc, hpc, hs⟩
        · exact ih h

/-- C10 counterexample: ten draws that each score 1 leave the loop still
running; it neither returns nor fails with any exhaustion error after the
candidates are spent. -/
theorem c10_counterexample :
    GenerateVeryStrongPassword [] 8 (List.replicate 10 (List.replicate 8 0)) =
      GenerateOutcome.stillLooping := by decide

/-- C10 witness: a first draw that maps to `Ab3#Ab3#` is returned and rescores
to 4. -/
theorem c10_witness :
    GenerateVeryStrongPassword [] 8 [[0,27,55,64,0,27,55,64]] =
      GenerateOutcome.returned (GeneratePassword 8 (some [0,27,55,64,0,27,55,64])) ∧
    ∃ c, ProcessPassword [] (GeneratePassword 8 (some [0,27,55,64,0,27,55,64])) =
      Except.ok c ∧ c.Score = 4 :=
  ⟨by decide,
   c10_returned_password_scores_four [] 8 [[0,27,55,64,0,27,55,64]]
     (GeneratePassword 8 (some [0,27,55,64,0,27,55,64])) (by decide)⟩

end GoPasswordUtilities
